import Mathlib

/-!
Verification of the handle lifecycle core of the AFIO/LLFIO repository,
as implemented in `src/include/afio/v2.0/detail/impl/posix/handle.ipp`
(the POSIX implementation, compiled for a Linux-like platform, so
`__linux__` is defined and `O_DSYNC` is available).

Kernel interaction is embedded explicitly:
* the per-descriptor status-flag word (what `fcntl(F_GETFL)` returns and
  `fcntl(F_SETFL)` writes) is threaded as a `Nat` bit field;
* each syscall that can fail takes an injected outcome `Option Nat`
  (`none` = the syscall succeeds, `some e` = it fails with `errno = e`).
-/

namespace Afio

/-- Linux (glibc, x86) open-flag constant `O_APPEND` = 0o2000. -/
def O_APPEND : Nat := 1024

/-- Linux open-flag constant `O_DSYNC` = 0o10000. -/
def O_DSYNC : Nat := 4096

/-- Linux open-flag constant `O_DIRECT` = 0o40000. -/
def O_DIRECT : Nat := 16384

/-- Linux open-flag constant `O_SYNC` = 0o4010000 | 0o10000 (glibc defines
`O_SYNC` as `__O_SYNC | O_DSYNC`). -/
def O_SYNC : Nat := 1052672

/-- Modelled from the spec: `native_handle_type` (declared in `handle.hpp`,
which is absent from the sources; §3 and §4.1 of the spec). An OS resource
reference: an integer file descriptor (`-1` when empty, making the value
falsy) plus a `behaviour` disposition bit field. A default-constructed
value is empty. -/
structure native_handle_type where
  fd : Int := -1
  behaviour : Nat := 0
deriving DecidableEq, Repr

/-- Modelled from the spec: truthiness of a `native_handle_type` (§4.1,
`is_valid()`): non-empty iff the descriptor is not `-1`. -/
def native_handle_type.is_valid (v : native_handle_type) : Bool :=
  v.fd != -1

/-- Modelled from the spec: the disposition bit `aligned_io` of the
`behaviour` bit field (§3; the numeric value is not fixed by the spec, any
single bit distinct from the other disposition bits serves). -/
def aligned_io_bit : Nat := 32

/-- Modelled from the spec: the disposition bit `append_only` of the
`behaviour` bit field (§3). -/
def append_only_bit : Nat := 64

/-- Modelled from the spec: the caching enumeration of a handle (§3). -/
inductive caching where
  | unchanged
  | none
  | only_metadata
  | reads
  | reads_and_metadata
  | all
  | safety_fsyncs
  | temporary
deriving DecidableEq, Repr

/-- Modelled from the spec: the data members of class `handle` (declared in
`handle.hpp`, absent from the sources; §3): the owned `native_handle_type`
`_v`, the stored caching mode `_caching`, and the open-flag bitset
`_flags`. -/
structure handle where
  _v : native_handle_type
  _caching : caching
  _flags : Nat
deriving DecidableEq, Repr

/-- Modelled from the spec: `handle::is_valid()` is the truthiness of the
owned native handle. -/
def handle.is_valid (h : handle) : Bool :=
  h._v.is_valid

/-- Modelled from the spec: `are_safety_fsyncs_issued()` (declared in
`handle.hpp`, absent from the sources) returns true iff the caching mode
is `safety_fsyncs` (§4.5). -/
def handle.are_safety_fsyncs_issued (h : handle) : Bool :=
  h._caching == caching.safety_fsyncs

/-- Outcome of `handle::close()` (handle.ipp lines 124-139): the handle
state after the call, the returned error if any, and whether the `fsync`
and `::close` syscalls were invoked. -/
structure CloseResult where
  post : handle
  err : Option Nat
  flushed : Bool
  released : Bool
deriving DecidableEq, Repr

/-- Embedding of `handle::close()` (handle.ipp lines 124-139). If `_v` is
falsy nothing happens and success is returned. Otherwise: if safety fsyncs
are issued, `fsync(_v.fd)` runs first and its failure is returned with the
handle unchanged; then `::close(_v.fd)` runs and its failure is returned
with the handle unchanged; on success `_v` is reset to a
default-constructed (empty) `native_handle_type`.
`fe` and `ce` inject the outcomes of `fsync` and `::close`. -/
def handle.close (fe ce : Option Nat) (h : handle) : CloseResult :=
  if h._v.is_valid then
    if h.are_safety_fsyncs_issued then
      match fe with
      | some e => ⟨h, some e, true, false⟩
      | none =>
        match ce with
        | some e => ⟨h, some e, true, true⟩
        | none => ⟨{ h with _v := {} }, none, true, true⟩
    else
      match ce with
      | some e => ⟨h, some e, false, true⟩
      | none => ⟨{ h with _v := {} }, none, false, true⟩
  else ⟨h, none, false, false⟩

/-- Outcome of the destructor: whether `handle::close()` was invoked and
whether the process was terminated via `abort()`. -/
structure DtorResult where
  closeCalled : Bool
  aborted : Bool
deriving DecidableEq, Repr

/-- Embedding of `handle::~handle()` (handle.ipp lines 32-44): if `_v` is
truthy, call `handle::close()`; if that returns an error, log fatally and
`abort()` the process. An empty handle does nothing. -/
def handle.destruct (fe ce : Option Nat) (h : handle) : DtorResult :=
  if h._v.is_valid then
    let r := handle.close fe ce h
    ⟨true, r.err.isSome⟩
  else ⟨false, false⟩

/-- C3: for every non-empty handle the destructor invokes close, and
terminates the process exactly when that close fails; for an empty handle
the destructor performs no close and never terminates the process. -/
theorem destruct_aborts_iff_close_fails (fe ce : Option Nat) (h : handle) :
    (h.is_valid = true →
      (handle.destruct fe ce h).closeCalled = true ∧
      ((handle.destruct fe ce h).aborted = true ↔
        (handle.close fe ce h).err.isSome = true)) ∧
    (h.is_valid = false →
      (handle.destruct fe ce h).closeCalled = false ∧
      (handle.destruct fe ce h).aborted = false) := by
  unfold handle.destruct handle.is_valid
  cases hv : h._v.is_valid <;> simp [hv]

/-- Witness for C3 at a concrete valid handle whose `::close` fails. -/
theorem destruct_aborts_iff_close_fails_witness :
    (handle.destruct Option.none (some 9)
      ⟨⟨3, 0⟩, caching.all, 0⟩).closeCalled = true ∧
    (handle.destruct Option.none (some 9)
      ⟨⟨3, 0⟩, caching.all, 0⟩).aborted = true := by
  have h := destruct_aborts_iff_close_fails Option.none (some 9)
    ⟨⟨3, 0⟩, caching.all, 0⟩
  have h1 := h.1 (by decide)
  exact ⟨h1.1, h1.2.mpr (by decide)⟩

/-- C4: after a successful `close`, the handle is empty, and a further
`close` on it (with any injected syscall outcomes) is a no-op returning
success and invoking no syscall. -/
theorem close_success_empties_handle (fe ce fe2 ce2 : Option Nat)
    (h : handle) (hs : (handle.close fe ce h).err = Option.none) :
    (handle.close fe ce h).post.is_valid = false ∧
    handle.close fe2 ce2 (handle.close fe ce h).post =
      ⟨(handle.close fe ce h).post, Option.none, false, false⟩ := by
  cases hv : h._v.is_valid <;>
    cases hf : h.are_safety_fsyncs_issued <;>
    cases fe <;> cases ce <;>
    simp_all [handle.close, handle.is_valid, native_handle_type.is_valid]

/-- Witness for C4 at a concrete valid handle, closing successfully and
then re-closing with injected failures that are never reached. -/
theorem close_success_empties_handle_witness :
    (handle.close Option.none Option.none
      ⟨⟨3, 0⟩, caching.all, 0⟩).err = Option.none ∧
    (handle.close Option.none Option.none
      ⟨⟨3, 0⟩, caching.all, 0⟩).post.is_valid = false := by
  refine ⟨by decide, ?_⟩
  exact (close_success_empties_handle Option.none Option.none
    (some 7) (some 8) ⟨⟨3, 0⟩, caching.all, 0⟩ (by decide)).1

/-- C5: when `close` on a non-empty handle fails (either the durability
flush or the OS release step), the injected OS error is returned and the
handle is left exactly as it was, still non-empty. -/
theorem close_failure_returns_error_keeps_handle (fe ce : Option Nat)
    (h : handle) (e : Nat) (hv : h.is_valid = true)
    (he : (handle.close fe ce h).err = some e) :
    (handle.close fe ce h).post = h ∧
    (handle.close fe ce h).post.is_valid = true ∧
    (fe = some e ∨ ce = some e) := by
  cases hf : h.are_safety_fsyncs_issued <;>
    cases fe <;> cases ce <;>
    simp_all [handle.close, handle.is_valid, native_handle_type.is_valid]

/-- Witness for C5: a concrete valid handle whose flush fails with
errno 5. -/
theorem close_failure_returns_error_keeps_handle_witness :
    (handle.close (some 5) Option.none
      ⟨⟨4, 0⟩, caching.safety_fsyncs, 0⟩).post =
      ⟨⟨4, 0⟩, caching.safety_fsyncs, 0⟩ ∧
    (handle.close (some 5) Option.none
      ⟨⟨4, 0⟩, caching.safety_fsyncs, 0⟩).post.is_valid = true := by
  have h := close_failure_returns_error_keeps_handle (some 5) Option.none
    ⟨⟨4, 0⟩, caching.safety_fsyncs, 0⟩ 5 (by decide) (by decide)
  exact ⟨h.1, h.2.1⟩

/-- C6: on a non-empty handle, `close` invokes the durability flush iff
the caching mode is `safety_fsyncs` (`are_safety_fsyncs_issued()` is this
exact predicate), and in every other mode it releases the OS handle
without flushing. -/
theorem close_flushes_iff_safety_fsyncs (fe ce : Option Nat) (h : handle)
    (hv : h.is_valid = true) :
    ((handle.close fe ce h).flushed = true ↔
      h._caching = caching.safety_fsyncs) ∧
    (h.are_safety_fsyncs_issued = (h._caching == caching.safety_fsyncs)) ∧
    (h._caching ≠ caching.safety_fsyncs →
      (handle.close fe ce h).flushed = false ∧
      (handle.close fe ce h).released = true) := by
  cases hf : h.are_safety_fsyncs_issued <;>
    cases fe <;> cases ce <;>
    simp_all [handle.close, handle.is_valid, handle.are_safety_fsyncs_issued,
      beq_iff_eq]

/-- Witness for C6 at a concrete valid handle in `safety_fsyncs` mode. -/
theorem close_flushes_iff_safety_fsyncs_witness :
    (handle.close Option.none Option.none
      ⟨⟨3, 0⟩, caching.safety_fsyncs, 0⟩).flushed = true := by
  exact (close_flushes_iff_safety_fsyncs Option.none Option.none
    ⟨⟨3, 0⟩, caching.safety_fsyncs, 0⟩ (by decide)).1.mpr (by decide)

/-- Embedding of `handle::clone()` (handle.ipp lines 141-150): construct a
new handle from a default native handle plus this handle's `_caching` and
`_flags`, copy the `behaviour` bits, then set its descriptor to the result
of `::dup`: `dup_fd = -1` means `dup` failed with `errno = dup_errno`.
The source handle is `const` and never modified. -/
def handle.clone (dup_fd : Int) (dup_errno : Nat) (h : handle) :
    Except Nat handle :=
  let ret : handle :=
    { _v := { fd := dup_fd, behaviour := h._v.behaviour },
      _caching := h._caching, _flags := h._flags }
  if dup_fd = -1 then Except.error dup_errno else Except.ok ret

/-- C9: a successful `clone` yields a new valid handle with the same
caching mode, flags and behaviour bits, owning the duplicated descriptor;
a failing `dup` (returning -1) yields the injected OS error. The source
handle is a `const` input of the function and is not modified. -/
theorem clone_copies_state (dup_fd : Int) (dup_errno : Nat) (h : handle)
    (hok : dup_fd ≠ -1) :
    (∃ h2, handle.clone dup_fd dup_errno h = Except.ok h2 ∧
      h2._caching = h._caching ∧ h2._flags = h._flags ∧
      h2._v.behaviour = h._v.behaviour ∧ h2._v.fd = dup_fd ∧
      h2.is_valid = true) ∧
    (∀ e, handle.clone (-1) e h = Except.error e) := by
  constructor
  · refine ⟨⟨⟨dup_fd, h._v.behaviour⟩, h._caching, h._flags⟩,
      ?_, rfl, rfl, rfl, rfl, ?_⟩
    · simp [handle.clone, hok]
    · simp [handle.is_valid, native_handle_type.is_valid, hok]
  · intro e
    simp [handle.clone]

/-- Witness for C9: a concrete failing `dup`, via the error conjunct of
the theorem instantiated at a handle whose successful-duplication
hypothesis is discharged at descriptor 5. -/
theorem clone_copies_state_witness :
    handle.clone (-1) 13 ⟨⟨3, 7⟩, caching.reads, 2⟩ = Except.error 13 :=
  (clone_copies_state 5 13 ⟨⟨3, 7⟩, caching.reads, 2⟩ (by decide)).2 13

/-- The literal marker Linux prepends or appends to a `/proc/self/fd`
symlink target whose descriptor is nameless (handle.ipp line 63-66). -/
def deleted_marker : List Char := " (deleted)".toList

/-- The symlink pathname read by `handle::current_path()` on a Linux-like
platform: `/proc/self/fd/<fd>` (handle.ipp lines 56-58). -/
def proc_self_fd (fd : Int) : String :=
  "/proc/self/fd/" ++ toString fd

/-- Embedding of the Linux branch of `handle::current_path()` (handle.ipp
lines 46-66 and 116). `readlinkO` maps a pathname to the outcome of the
`readlink` syscall (an errno, or the link target as characters). The
function reads the link at `/proc/self/fd/<fd>`; on failure the errno is
returned; on success, if the target has at least 10 characters and its
first ten or its last ten characters equal " (deleted)", the result is
cleared and the empty path is returned as a success. -/
def handle.current_path (readlinkO : String → Except Nat (List Char))
    (h : handle) : Except Nat (List Char) :=
  match readlinkO (proc_self_fd h._v.fd) with
  | Except.error e => Except.error e
  | Except.ok ret =>
    if 10 ≤ ret.length ∧
        (ret.take 10 = deleted_marker ∨
         ret.drop (ret.length - 10) = deleted_marker) then
      Except.ok []
    else Except.ok ret

/-- C7: on a Linux-like platform `current_path` reads the symlink at
`/proc/self/fd/<fd>`, and whenever the link target starts or ends with
the literal marker " (deleted)" the call returns the empty path as a
success value, not an error. -/
theorem current_path_deleted_marker_gives_empty
    (readlinkO : String → Except Nat (List Char)) (h : handle)
    (s : List Char)
    (hr : readlinkO (proc_self_fd h._v.fd) = Except.ok s)
    (hm : deleted_marker <+: s ∨ deleted_marker <:+ s) :
    handle.current_path readlinkO h = Except.ok [] := by
  have hdm : deleted_marker.length = 10 := rfl
  have hcond : 10 ≤ s.length ∧
      (s.take 10 = deleted_marker ∨
       s.drop (s.length - 10) = deleted_marker) := by
    cases hm with
    | inl hp =>
      obtain ⟨t, rfl⟩ := hp
      refine ⟨by simp [hdm], Or.inl ?_⟩
      rw [← hdm, List.take_left]
    | inr hs =>
      obtain ⟨t, rfl⟩ := hs
      refine ⟨by simp [hdm], Or.inr ?_⟩
      have hlen : (t ++ deleted_marker).length - 10 = t.length := by
        simp [hdm]
      rw [hlen, List.drop_left]
  simp only [handle.current_path, hr]
  rw [if_pos hcond]

/-- Witness for C7: a readlink oracle answering exactly the marker. -/
theorem current_path_deleted_marker_gives_empty_witness :
    handle.current_path (fun _ => Except.ok deleted_marker)
      ⟨⟨3, 0⟩, caching.all, 0⟩ = Except.ok [] := by
  exact current_path_deleted_marker_gives_empty
    (fun _ => Except.ok deleted_marker) ⟨⟨3, 0⟩, caching.all, 0⟩
    deleted_marker rfl (Or.inl List.prefix_rfl)

/-- Outcome of an attribute-mutating call (`set_append_only`,
`set_kernel_caching`): the handle after the call, the kernel
status-flag word of the descriptor after the call, and the returned
error if any. -/
structure SetAttrResult where
  post : handle
  fdflags : Nat
  err : Option Nat
deriving DecidableEq, Repr

/-- The C expression `~m` as it acts on the 32-bit flag words used by the
attribute calls: bitwise NOT within an unsigned 32-bit word, i.e. the
two's-complement of `m` against `0xFFFFFFFF`. Combined with `&&&` this is
exactly `x &= ~m` on a 32-bit `int` holding open flags. -/
def not32 (m : Nat) : Nat := 4294967295 - m

/-- Embedding of `handle::set_append_only(bool enable)` (handle.ipp lines
152-175). `k` is the kernel status-flag word the `fcntl(F_GETFL)` call
reads and `fcntl(F_SETFL)` writes; `ge` and `se` inject failures of those
two calls. A failing `fcntl` changes nothing, so the kernel word and the
handle are returned unchanged on every error path, exactly as in the
source where each failure returns before any mutation. -/
def handle.set_append_only (ge se : Option Nat) (k : Nat) (h : handle)
    (enable : Bool) : SetAttrResult :=
  match ge with
  | some e => ⟨h, k, some e⟩
  | none =>
    if enable then
      let attribs := k ||| O_APPEND
      match se with
      | some e => ⟨h, k, some e⟩
      | none =>
        ⟨{ h with _v := { h._v with
            behaviour := h._v.behaviour ||| append_only_bit } },
          attribs, none⟩
    else
      let attribs := k &&& not32 O_APPEND
      match se with
      | some e => ⟨h, k, some e⟩
      | none =>
        ⟨{ h with _v := { h._v with
            behaviour := h._v.behaviour &&& not32 append_only_bit } },
          attribs, none⟩

/-- Embedding of `handle::set_kernel_caching(caching)` (handle.ipp lines
177-230), compiled for a Linux-like platform where `O_DSYNC` is defined.
`m` is the argument mode. Note that the source dispatches the `switch` on
the stored member `_caching` (line 188), not on the argument, and assigns
the argument to `_caching` only at the very end (line 228); this embedding
reproduces that. For mode `unchanged` the source breaks out of the switch
without any `F_SETFL`, so the kernel word keeps its incoming value. -/
def handle.set_kernel_caching (ge se : Option Nat) (k : Nat) (h : handle)
    (m : caching) : SetAttrResult :=
  match ge with
  | some e => ⟨h, k, some e⟩
  | none =>
    let attribs := k &&& not32 (O_SYNC ||| O_DIRECT ||| O_DSYNC)
    match h._caching with
    | caching.unchanged =>
      ⟨{ h with _caching := m }, k, none⟩
    | caching.none =>
      match se with
      | some e => ⟨h, k, some e⟩
      | none =>
        ⟨{ h with
            _v := { h._v with
              behaviour := h._v.behaviour ||| aligned_io_bit },
            _caching := m },
          attribs ||| (O_SYNC ||| O_DIRECT), none⟩
    | caching.only_metadata =>
      match se with
      | some e => ⟨h, k, some e⟩
      | none =>
        ⟨{ h with
            _v := { h._v with
              behaviour := h._v.behaviour ||| aligned_io_bit },
            _caching := m },
          attribs ||| O_DIRECT, none⟩
    | caching.reads =>
      match se with
      | some e => ⟨h, k, some e⟩
      | none =>
        ⟨{ h with
            _v := { h._v with
              behaviour := h._v.behaviour &&& not32 aligned_io_bit },
            _caching := m },
          attribs ||| O_SYNC, none⟩
    | caching.reads_and_metadata =>
      match se with
      | some e => ⟨h, k, some e⟩
      | none =>
        ⟨{ h with
            _v := { h._v with
              behaviour := h._v.behaviour &&& not32 aligned_io_bit },
            _caching := m },
          attribs ||| O_DSYNC, none⟩
    | caching.all | caching.safety_fsyncs | caching.temporary =>
      match se with
      | some e => ⟨h, k, some e⟩
      | none =>
        ⟨{ h with
            _v := { h._v with
              behaviour := h._v.behaviour &&& not32 aligned_io_bit },
            _caching := m },
          attribs, none⟩

/-- C1 evaluation at the failing input: a valid handle whose stored mode
is `all`, asked to switch to mode `none` with every syscall succeeding.
The claim requires O_SYNC (bit 20) and O_DIRECT (bit 14) to be set on the
kernel word and the `aligned_io` behaviour bit (bit 5) to be set; the
code instead dispatches its switch on the old stored mode `all`, leaving
all three clear while still recording the new mode. -/
theorem set_kernel_caching_dispatches_on_old_mode :
    (handle.set_kernel_caching Option.none Option.none 0
      ⟨⟨3, 0⟩, caching.all, 0⟩ caching.none).err = Option.none ∧
    (handle.set_kernel_caching Option.none Option.none 0
      ⟨⟨3, 0⟩, caching.all, 0⟩ caching.none).post._caching = caching.none ∧
    (handle.set_kernel_caching Option.none Option.none 0
      ⟨⟨3, 0⟩, caching.all, 0⟩ caching.none).fdflags.testBit 20 = false ∧
    (handle.set_kernel_caching Option.none Option.none 0
      ⟨⟨3, 0⟩, caching.all, 0⟩ caching.none).fdflags.testBit 14 = false ∧
    (handle.set_kernel_caching Option.none Option.none 0
      ⟨⟨3, 0⟩, caching.all, 0⟩ caching.none).post._v.behaviour.testBit 5 =
      false := by
  decide

/-- First of two successive `set_kernel_caching` calls with mode `all` on
a valid handle whose stored mode is `none`, with O_SYNC|O_DIRECT set on
the kernel word and the `aligned_io` behaviour bit set, all syscalls
succeeding. -/
def skc_rep_first : SetAttrResult :=
  handle.set_kernel_caching Option.none Option.none (O_SYNC ||| O_DIRECT)
    ⟨⟨3, aligned_io_bit⟩, caching.none, 0⟩ caching.all

/-- Second of the two successive calls, same mode `all`. -/
def skc_rep_second : SetAttrResult :=
  handle.set_kernel_caching Option.none Option.none skc_rep_first.fdflags
    skc_rep_first.post caching.all

/-- C2 evaluation at the failing input: both calls succeed, yet the first
call (dispatching on the old stored mode `none`) leaves O_SYNC|O_DIRECT
and `aligned_io` set, while the second call (now dispatching on `all`)
clears them: repeated calls with the same mode do not leave the handle in
the same state. -/
theorem set_kernel_caching_not_idempotent :
    skc_rep_first.err = Option.none ∧ skc_rep_second.err = Option.none ∧
    skc_rep_first.post._caching = caching.all ∧
    skc_rep_second.post._caching = caching.all ∧
    skc_rep_first.fdflags ≠ skc_rep_second.fdflags ∧
    skc_rep_first.post._v.behaviour ≠ skc_rep_second.post._v.behaviour := by
  decide

/-- Concrete start state for the append-only round trip: O_APPEND already
set on the kernel word and the `append_only` behaviour bit already set. -/
def aro_h0 : handle := ⟨⟨3, append_only_bit⟩, caching.all, 0⟩

/-- The round trip's first call, `set_append_only(true)`, succeeding. -/
def aro_r1 : SetAttrResult :=
  handle.set_append_only Option.none Option.none O_APPEND aro_h0 true

/-- The round trip's second call, `set_append_only(false)`, succeeding. -/
def aro_r2 : SetAttrResult :=
  handle.set_append_only Option.none Option.none aro_r1.fdflags aro_r1.post
    false

/-- C8 counterexample: starting with O_APPEND (bit 10) set on the kernel
word and the `append_only` behaviour bit (bit 6) set, the `true` then
`false` round trip, with both calls succeeding, ends with both bits
clear: the original O_APPEND state is not restored. -/
theorem set_append_only_round_trip_counterexample :
    aro_r1.err = Option.none ∧ aro_r2.err = Option.none ∧
    O_APPEND.testBit 10 = true ∧
    aro_h0._v.behaviour.testBit 6 = true ∧
    aro_r2.fdflags.testBit 10 = false ∧
    aro_r2.post._v.behaviour.testBit 6 = false := by
  decide

/-- C8 amended: for every starting kernel word and handle, the `true`
then `false` round trip (both calls succeeding) leaves the O_APPEND
kernel bit and the `append_only` behaviour bit clear; consequently it
restores the original O_APPEND state exactly when that state was clear
before the calls. -/
theorem set_append_only_round_trip_clears (k0 : Nat) (h0 : handle) :
    ((handle.set_append_only Option.none Option.none
        (handle.set_append_only Option.none Option.none k0 h0 true).fdflags
        (handle.set_append_only Option.none Option.none k0 h0 true).post
        false).fdflags.testBit 10 = k0.testBit 10 ↔
      k0.testBit 10 = false) ∧
    ((handle.set_append_only Option.none Option.none
        (handle.set_append_only Option.none Option.none k0 h0 true).fdflags
        (handle.set_append_only Option.none Option.none k0 h0 true).post
        false).post._v.behaviour.testBit 6 = h0._v.behaviour.testBit 6 ↔
      h0._v.behaviour.testBit 6 = false) := by
  have t1 : (not32 O_APPEND).testBit 10 = false := by decide
  have t2 : (not32 append_only_bit).testBit 6 = false := by decide
  have e1 : (handle.set_append_only Option.none Option.none
      (handle.set_append_only Option.none Option.none k0 h0 true).fdflags
      (handle.set_append_only Option.none Option.none k0 h0 true).post
      false).fdflags = (k0 ||| O_APPEND) &&& not32 O_APPEND := rfl
  have e2 : (handle.set_append_only Option.none Option.none
      (handle.set_append_only Option.none Option.none k0 h0 true).fdflags
      (handle.set_append_only Option.none Option.none k0 h0 true).post
      false).post._v.behaviour =
      (h0._v.behaviour ||| append_only_bit) &&& not32 append_only_bit := rfl
  constructor
  · rw [e1, Nat.testBit_land, t1, Bool.and_false]
    exact eq_comm
  · rw [e2, Nat.testBit_land, t2, Bool.and_false]
    exact eq_comm

/-- C10: whenever `set_append_only` or `set_kernel_caching` returns an
error, the handle — behaviour bits and stored caching mode included — and
the kernel flag word are exactly as they were before the call: every
failing `fcntl` causes a return before any mutation. -/
theorem attr_error_leaves_state (ge se : Option Nat) (k : Nat)
    (h : handle) (m : caching) (enable : Bool) :
    ((handle.set_append_only ge se k h enable).err.isSome = true →
      (handle.set_append_only ge se k h enable).post = h ∧
      (handle.set_append_only ge se k h enable).fdflags = k) ∧
    ((handle.set_kernel_caching ge se k h m).err.isSome = true →
      (handle.set_kernel_caching ge se k h m).post = h ∧
      (handle.set_kernel_caching ge se k h m).fdflags = k) := by
  cases ge <;> cases se <;> cases enable <;> cases hm : h._caching <;>
    simp_all [handle.set_append_only, handle.set_kernel_caching]

/-- Witness for C10: a concrete failing `F_GETFL` on each call. -/
theorem attr_error_leaves_state_witness :
    (handle.set_append_only (some 7) Option.none 3
      ⟨⟨3, 0⟩, caching.all, 0⟩ true).post = ⟨⟨3, 0⟩, caching.all, 0⟩ ∧
    (handle.set_kernel_caching (some 7) Option.none 3
      ⟨⟨3, 0⟩, caching.all, 0⟩ caching.none).post =
      ⟨⟨3, 0⟩, caching.all, 0⟩ := by
  have h := attr_error_leaves_state (some 7) Option.none 3
    ⟨⟨3, 0⟩, caching.all, 0⟩ caching.none true
  exact ⟨(h.1 (by decide)).1, (h.2 (by decide)).1⟩

end Afio
